import Mathlib

/-!
Verification development for the care_aware wellness application.

The definitions below are shallow embeddings of the Python source files
`weather_service.py`, `openai_service.py` and `models.py`:
pure functions become Lean functions, numeric weather observations are
modelled as `Int`, lifestyle-log averages (Python true division) as `Rat`,
and Python dictionaries as structures.  The external OpenAI interaction,
which the source wraps in `try/except`, is modelled by an explicit outcome
parameter whose variants mirror the distinguishable ways the call can end.
-/

/-- Substring test used to embed Python's `needle in hay` on strings:
`strStartsWith needle hay` checks whether `needle` is an initial segment
of `hay` (on character lists). -/
def strStartsWith : List Char → List Char → Bool
  | [], _ => true
  | _ :: _, [] => false
  | a :: as, b :: bs => a == b && strStartsWith as bs

/-- `strOccursAt needle hay` checks whether `needle` occurs as a contiguous
segment anywhere in `hay`. -/
def strOccursAt (needle : List Char) : List Char → Bool
  | [] => needle.isEmpty
  | c :: rest => strStartsWith needle (c :: rest) || strOccursAt needle rest

/-- Python `needle in hay` for strings. -/
def strContains (hay needle : String) : Bool :=
  strOccursAt needle.data hay.data

/-- Python `str.lower()`, character-wise. -/
def strToLower (s : String) : String := ⟨s.data.map Char.toLower⟩

/-- The categorical risk labels produced by `calculate_health_risks`
(`weather_service.py`); `poor`/`good` are the air-quality labels. -/
inductive RiskLevel where
  | low | moderate | high | poor | good
deriving DecidableEq, Repr

/-- The `risk_indicators` dictionary of `weather_service.py`. -/
structure RiskIndicators where
  heat_stress : RiskLevel
  uv_risk : RiskLevel
  air_quality : RiskLevel
  dehydration_risk : RiskLevel
deriving DecidableEq, Repr

/-- `calculate_health_risks` (weather_service.py lines 82-124).  The Python
function reads `temp`, `humidity`, `feels_like` and `weather[0]['main']`
out of the raw weather dictionary; here those four values are the
parameters. -/
def calculate_health_risks (temp feels_like humidity : Int)
    (weather_main : String) : RiskIndicators :=
  let heat_stress :=
    if feels_like > 35 then RiskLevel.high
    else if feels_like > 30 then RiskLevel.moderate
    else RiskLevel.low
  let weather_main_lower := strToLower weather_main
  let uv_risk :=
    if strContains weather_main_lower "clear" = true ∧ temp > 25 then RiskLevel.high
    else if temp > 20 then RiskLevel.moderate
    else RiskLevel.low
  let air_quality :=
    if humidity > 80 then RiskLevel.poor
    else if humidity > 60 then RiskLevel.moderate
    else RiskLevel.good
  let dehydration_risk :=
    if temp > 32 ∨ (temp > 28 ∧ humidity > 70) then RiskLevel.high
    else if temp > 25 then RiskLevel.moderate
    else RiskLevel.low
  ⟨heat_stress, uv_risk, air_quality, dehydration_risk⟩

set_option maxHeartbeats 2000000 in
/-- C1: the Weather Risk Classifier (`calculate_health_risks`) is a
deterministic function whose four risk levels are exactly characterised by
the spec's strict-threshold rules: heat_stress is high iff feels_like > 35,
moderate iff 30 < feels_like ≤ 35, else low; uv_risk is high iff the
description contains "clear" and temp > 25, moderate iff (not that and)
temp > 20, else low; air_quality is poor iff humidity > 80, moderate iff
60 < humidity ≤ 80, else good; dehydration_risk is high iff temp > 32 or
(temp > 28 and humidity > 70), moderate iff (not that and) temp > 25, else
low.  All comparisons are strict, so boundary values resolve to the lower
tier. -/
theorem calculate_health_risks_thresholds (temp feels_like humidity : Int)
    (weather_main : String) :
    ((calculate_health_risks temp feels_like humidity weather_main).heat_stress
        = RiskLevel.high ↔ 35 < feels_like) ∧
    ((calculate_health_risks temp feels_like humidity weather_main).heat_stress
        = RiskLevel.moderate ↔ (30 < feels_like ∧ feels_like ≤ 35)) ∧
    ((calculate_health_risks temp feels_like humidity weather_main).heat_stress
        = RiskLevel.low ↔ feels_like ≤ 30) ∧
    ((calculate_health_risks temp feels_like humidity weather_main).uv_risk
        = RiskLevel.high ↔
        (strContains (strToLower weather_main) "clear" = true ∧ 25 < temp)) ∧
    ((calculate_health_risks temp feels_like humidity weather_main).uv_risk
        = RiskLevel.moderate ↔
        (¬(strContains (strToLower weather_main) "clear" = true ∧ 25 < temp) ∧
          20 < temp)) ∧
    ((calculate_health_risks temp feels_like humidity weather_main).uv_risk
        = RiskLevel.low ↔
        (¬(strContains (strToLower weather_main) "clear" = true ∧ 25 < temp) ∧
          temp ≤ 20)) ∧
    ((calculate_health_risks temp feels_like humidity weather_main).air_quality
        = RiskLevel.poor ↔ 80 < humidity) ∧
    ((calculate_health_risks temp feels_like humidity weather_main).air_quality
        = RiskLevel.moderate ↔ (60 < humidity ∧ humidity ≤ 80)) ∧
    ((calculate_health_risks temp feels_like humidity weather_main).air_quality
        = RiskLevel.good ↔ humidity ≤ 60) ∧
    ((calculate_health_risks temp feels_like humidity
        weather_main).dehydration_risk = RiskLevel.high ↔
        (32 < temp ∨ (28 < temp ∧ 70 < humidity))) ∧
    ((calculate_health_risks temp feels_like humidity
        weather_main).dehydration_risk = RiskLevel.moderate ↔
        (¬(32 < temp ∨ (28 < temp ∧ 70 < humidity)) ∧ 25 < temp)) ∧
    ((calculate_health_risks temp feels_like humidity
        weather_main).dehydration_risk = RiskLevel.low ↔
        (¬(32 < temp ∨ (28 < temp ∧ 70 < humidity)) ∧ temp ≤ 25)) := by
  unfold calculate_health_risks
  cases hc : strContains (strToLower weather_main) "clear" <;>
    simp only [hc] <;> split_ifs <;> simp_all <;> omega

/-- A row of `lifestyle_logs_db` as built by `LifestyleLog.create`
(`models.py`). -/
structure LogEntry where
  id : Nat
  user_id : Nat
  date : String
  sleep_hours : Rat
  exercise_minutes : Int
  water_glasses : Int
  meals : String
  notes : String
deriving Repr

/-- A row of `users_db` as read by the recommendation engine
(only `name` and `is_premium` are consumed). -/
structure UserRec where
  name : String
  is_premium : Bool
deriving Repr

/-- A row of `profiles_db` (`models.py`, `Profile.create_or_update`). -/
structure ProfileRec where
  age : Int
  gender : String
  location : String
  exercise_frequency : String
  sleep_hours : Rat
  diet_type : String
deriving Repr

/-- The `current` block of a weather dictionary, restricted to the fields
the tip and alert generators read (`temp`, `humidity`). -/
structure WeatherCurrent where
  temp : Int
  humidity : Int
deriving Repr

/-- A weather dictionary as consumed by `get_health_alerts` and
`get_fallback_health_tips`: a `current` block plus `risk_indicators`.
An absent dictionary (Python `None` / falsy) is `Option.none` at use
sites. -/
structure WeatherInfo where
  current : WeatherCurrent
  risk_indicators : RiskIndicators
deriving Repr

/-- Mean of `sleep_hours` over the first 7 entries, divided by
`min(len(recent_logs), 7)` — Python true division, embedded in `Rat`. -/
def avg_sleep (recent_logs : List LogEntry) : Rat :=
  ((recent_logs.take 7).map (·.sleep_hours)).sum / ((min recent_logs.length 7 : Nat) : Rat)

/-- Mean of `exercise_minutes` over the first 7 entries. -/
def avg_exercise7 (recent_logs : List LogEntry) : Rat :=
  (((recent_logs.take 7).map (·.exercise_minutes)).sum : Int) / ((min recent_logs.length 7 : Nat) : Rat)

/-- Mean of `water_glasses` over the first 7 entries. -/
def avg_water (recent_logs : List LogEntry) : Rat :=
  (((recent_logs.take 7).map (·.water_glasses)).sum : Int) / ((min recent_logs.length 7 : Nat) : Rat)

/-- Mean of `exercise_minutes` over the first 3 entries, used by
`get_health_alerts`. -/
def avg_exercise3 (recent_logs : List LogEntry) : Rat :=
  (((recent_logs.take 3).map (·.exercise_minutes)).sum : Int) / ((min recent_logs.length 3 : Nat) : Rat)

/-- Tip strings of `get_fallback_health_tips` (`openai_service.py`). -/
def lowSleepTip : String :=
  "💤 Try to get 7-9 hours of sleep nightly for better health and immunity."

def overSleepTip : String :=
  "💤 Consider maintaining a consistent sleep schedule - too much sleep can also affect energy levels."

def genericSleepTip : String :=
  "💤 Maintain a regular sleep schedule of 7-9 hours for optimal health."

def lowActivityTip : String :=
  "🏃‍♂️ Aim for at least 30 minutes of physical activity daily to boost your cardiovascular health."

def genericActivityTip : String :=
  "🏃‍♂️ Regular exercise is key to maintaining good health - aim for 150 minutes per week."

def hydrationTip : String :=
  "💧 Stay hydrated by drinking at least 8 glasses of water daily."

def genericHydrationTip : String :=
  "💧 Proper hydration is essential - aim for 8-10 glasses of water daily."

def heatTip : String :=
  "☀️ High temperatures detected - stay cool, drink extra water, and avoid outdoor activities during peak hours."

def coldTip : String :=
  "❄️ Cool weather - dress warmly and maintain your immune system with proper nutrition."

def humidityTip : String :=
  "💨 High humidity levels - be aware of increased risk of heat-related stress and dehydration."

def dietTip : String :=
  "🥗 Include plenty of fruits and vegetables in your diet for essential vitamins and minerals."

def stressTip : String :=
  "🧘‍♀️ Practice stress management techniques like meditation or deep breathing exercises."

def checkupTip : String :=
  "👩‍⚕️ Schedule regular health check-ups and screenings for preventive care."

/-- Sleep branch of `get_fallback_health_tips`: with logs, at most one of
the low-sleep / over-sleep tips; without logs, the generic sleep tip. -/
def sleepTips (recent_logs : List LogEntry) : List String :=
  if recent_logs.isEmpty then [genericSleepTip]
  else if avg_sleep recent_logs < 7 then [lowSleepTip]
  else if avg_sleep recent_logs > 9 then [overSleepTip]
  else []

/-- Exercise branch of `get_fallback_health_tips`. -/
def exerciseTips (recent_logs : List LogEntry) : List String :=
  if recent_logs.isEmpty then [genericActivityTip]
  else if avg_exercise7 recent_logs < 30 then [lowActivityTip]
  else []

/-- Hydration branch of `get_fallback_health_tips`. -/
def hydrationTips (recent_logs : List LogEntry) : List String :=
  if recent_logs.isEmpty then [genericHydrationTip]
  else if avg_water recent_logs < 8 then [hydrationTip]
  else []

/-- Weather branch of `get_fallback_health_tips`: heat/cold are an
`if/elif` pair, the humidity tip is independent; nothing fires when the
weather dictionary is absent or lacks a `current` block. -/
def weatherTips (weather_data : Option WeatherInfo) : List String :=
  match weather_data with
  | none => []
  | some w =>
    (if w.current.temp > 30 then [heatTip]
     else if w.current.temp < 15 then [coldTip]
     else []) ++
    (if w.current.humidity > 80 then [humidityTip] else [])

/-- The three fixed general-wellness filler tips, appended after the
personalized ones. -/
def generalWellnessTips : List String := [dietTip, stressTip, checkupTip]

/-- Steps 1-4 of `get_fallback_health_tips`: the tips appended before the
general-wellness filler. -/
def personalTips (recent_logs : List LogEntry)
    (weather_data : Option WeatherInfo) : List String :=
  sleepTips recent_logs ++ exerciseTips recent_logs ++
    hydrationTips recent_logs ++ weatherTips weather_data

/-- `get_fallback_health_tips` (openai_service.py lines 134-185): the
sleep, exercise, hydration and weather tips in order, then the three
general-wellness fillers, truncated to the first 5 (`tips[:5]`).
`user` and `profile` are accepted, as in the source, but unused. -/
def get_fallback_health_tips (_user : UserRec) (_profile : ProfileRec)
    (recent_logs : List LogEntry) (weather_data : Option WeatherInfo) :
    List String :=
  (personalTips recent_logs weather_data ++ generalWellnessTips).take 5

/-- The nine tip strings that do not depend on the user's own logs:
the three generic no-data tips, the three weather tips and the three
general-wellness fillers. -/
def nonPersonalizedPool : List String :=
  [genericSleepTip, genericActivityTip, genericHydrationTip,
   heatTip, coldTip, humidityTip, dietTip, stressTip, checkupTip]

/-- Steps 1-4 of the tip generator never produce more than 5 tips:
sleep, exercise and hydration each contribute at most one, the weather
step at most two. -/
theorem personalTips_length_le (recent_logs : List LogEntry)
    (weather_data : Option WeatherInfo) :
    (personalTips recent_logs weather_data).length ≤ 5 := by
  unfold personalTips sleepTips exerciseTips hydrationTips weatherTips
  cases weather_data <;> split_ifs <;> simp <;> split_ifs <;> simp

/-- The final truncation `tips[:5]` keeps all of steps 1-4 and lets the
general-wellness fillers occupy only the remaining slots. -/
theorem get_fallback_health_tips_eq (user : UserRec) (profile : ProfileRec)
    (recent_logs : List LogEntry) (weather_data : Option WeatherInfo) :
    get_fallback_health_tips user profile recent_logs weather_data =
      personalTips recent_logs weather_data ++
        generalWellnessTips.take
          (5 - (personalTips recent_logs weather_data).length) := by
  unfold get_fallback_health_tips
  rw [List.take_append_eq_append_take,
    List.take_of_length_le (personalTips_length_le recent_logs weather_data)]

/-- C2: for every input — including an empty log window and absent
weather — the rule-based tip generator returns between 1 and 5 tip
strings, and on an empty log window every tip it returns is one of the
non-personalized (generic / weather / filler) tips. -/
theorem get_fallback_health_tips_bounds (user : UserRec)
    (profile : ProfileRec) (recent_logs : List LogEntry)
    (weather_data : Option WeatherInfo) :
    (1 ≤ (get_fallback_health_tips user profile recent_logs weather_data).length ∧
      (get_fallback_health_tips user profile recent_logs weather_data).length ≤ 5) ∧
    (get_fallback_health_tips user profile [] weather_data).all
      (fun t => nonPersonalizedPool.contains t) = true := by
  refine ⟨⟨?_, ?_⟩, ?_⟩
  · rw [get_fallback_health_tips_eq]
    have h := personalTips_length_le recent_logs weather_data
    simp [generalWellnessTips]
    omega
  · unfold get_fallback_health_tips
    simp [List.length_take]
  · rw [get_fallback_health_tips_eq]
    unfold personalTips sleepTips exerciseTips hydrationTips weatherTips
    cases weather_data with
    | none => decide
    | some w =>
      rcases w with ⟨⟨temp, humidity⟩, risks⟩
      dsimp only
      split_ifs <;> first | decide | simp_all

/-- Sample user, profile, logs and weather for the concrete scenarios. -/
def sampleUser : UserRec := ⟨"Test User", false⟩

def sampleProfile : ProfileRec := ⟨30, "female", "Lagos", "moderate", 8, "balanced"⟩

/-- One log entry with sleep 5 h, exercise 10 min, water 3 glasses, so the
7-entry window averages are 5, 10 and 3. -/
def c4Log : LogEntry := ⟨1, 1, "2024-01-01", 5, 10, 3, "rice", ""⟩

/-- Weather with temp 32 °C and humidity 85 %. -/
def c4Weather : WeatherInfo :=
  ⟨⟨32, 85⟩, ⟨RiskLevel.moderate, RiskLevel.moderate, RiskLevel.poor,
    RiskLevel.high⟩⟩

/-- C4: on a log window averaging sleep 5 h, exercise 10 min, water
3 glasses, with weather temp 32 and humidity 85, the tip generator returns
exactly the low-sleep, low-activity, hydration, heat and humidity tips in
that order; all three general-wellness fillers are dropped by the
truncation to 5. -/
theorem get_fallback_health_tips_c4 :
    get_fallback_health_tips sampleUser sampleProfile [c4Log]
        (some c4Weather) =
      [lowSleepTip, lowActivityTip, hydrationTip, heatTip, humidityTip] := by
  norm_num [get_fallback_health_tips, personalTips, sleepTips, exerciseTips,
    hydrationTips, weatherTips, avg_sleep, avg_exercise7, avg_water, c4Log,
    c4Weather, generalWellnessTips]

/-- C8 (claim as stated, refuted): there is no input on which steps 1-4
produce at least 5 tips and some step-1-4 tip is displaced from the final
truncated list.  Steps 1-4 never exceed 5 tips and are kept in full, so a
general-wellness filler can never crowd out a personalized tip. -/
theorem no_personal_tip_displaced :
    ¬ ∃ (user : UserRec) (profile : ProfileRec) (logs : List LogEntry)
        (w : Option WeatherInfo),
      5 ≤ (personalTips logs w).length ∧
      ∃ t ∈ personalTips logs w,
        t ∉ get_fallback_health_tips user profile logs w := by
  rintro ⟨user, profile, logs, w, -, t, ht, habs⟩
  exact habs (by rw [get_fallback_health_tips_eq]; exact List.mem_append_left _ ht)

/-- C8 (amended): steps 1-4 produce at most 5 tips, and the final list is
exactly those tips followed by as many general-wellness fillers as fit in
the remaining slots — fillers can never displace a personalized tip. -/
theorem fillers_only_fill_remaining_slots (user : UserRec)
    (profile : ProfileRec) (logs : List LogEntry)
    (w : Option WeatherInfo) :
    (personalTips logs w).length ≤ 5 ∧
    get_fallback_health_tips user profile logs w =
      personalTips logs w ++
        generalWellnessTips.take (5 - (personalTips logs w).length) :=
  ⟨personalTips_length_le logs w, get_fallback_health_tips_eq user profile logs w⟩

/-- An alert record as appended by `get_health_alerts`
(`weather_service.py` lines 126-212). -/
structure Alert where
  type : String
  title : String
  message : String
  icon : String
deriving DecidableEq, Repr

def extremeHeatAlert : Alert :=
  ⟨"warning", "Extreme Heat Alert",
   "Very high temperatures detected. Stay indoors, drink plenty of water, and avoid strenuous outdoor activities.",
   "🌡️"⟩

def heatAdvisoryAlert : Alert :=
  ⟨"caution", "Heat Advisory",
   "High temperatures today. Stay hydrated and take breaks if working outdoors.",
   "☀️"⟩

def highHumidityAlert : Alert :=
  ⟨"info", "High Humidity Alert",
   "Very humid conditions may affect breathing and increase heat stress. Stay cool and hydrated.",
   "💨"⟩

def dehydrationAlert : Alert :=
  ⟨"warning", "Dehydration Risk",
   "Weather conditions increase dehydration risk. Drink water regularly, even if you don't feel thirsty.",
   "💧"⟩

def uvAlert : Alert :=
  ⟨"caution", "High UV Index",
   "Strong UV radiation today. Use sunscreen, wear protective clothing, and seek shade during peak hours.",
   "🧴"⟩

def airQualityAlert : Alert :=
  ⟨"caution", "Air Quality Advisory",
   "Poor air quality conditions. Consider limiting outdoor activities, especially if you have respiratory issues.",
   "😷"⟩

def exerciseAlert : Alert :=
  ⟨"info", "Exercise Adjustment",
   "Consider indoor workouts or exercising during cooler hours due to high temperatures.",
   "🏃‍♂️"⟩

def coolWeatherAlert : Alert :=
  ⟨"info", "Cool Weather Reminder",
   "Cooler temperatures - ensure adequate vitamin D intake and maintain your exercise routine.",
   "🧥"⟩

/-- `get_health_alerts` (weather_service.py lines 126-212): evaluates its
alert conditions in source order, appending each alert that fires; `user`
and `profile` are accepted, as in the source, but unused.  An absent
(falsy) weather dictionary yields no alerts. -/
def get_health_alerts (_user : UserRec) (_profile : ProfileRec)
    (recent_logs : List LogEntry) (weather_data : Option WeatherInfo) :
    List Alert :=
  match weather_data with
  | none => []
  | some w =>
    let temp := w.current.temp
    let humidity := w.current.humidity
    let risks := w.risk_indicators
    (if temp > 35 then [extremeHeatAlert]
      else if temp > 30 then [heatAdvisoryAlert]
      else []) ++
    (if humidity > 85 then [highHumidityAlert] else []) ++
    (if risks.dehydration_risk = RiskLevel.high then [dehydrationAlert]
      else []) ++
    (if risks.uv_risk = RiskLevel.high then [uvAlert] else []) ++
    (if risks.air_quality = RiskLevel.poor then [airQualityAlert] else []) ++
    (if ¬recent_logs.isEmpty then
        (if avg_exercise3 recent_logs > 60 then
          (if temp > 30 then [exerciseAlert] else [])
         else [])
      else []) ++
    (if temp < 20 then [coolWeatherAlert] else [])

/-- A log entry with 70 exercise minutes, for the C3 scenario. -/
def c3Log (i : Nat) : LogEntry := ⟨i, 1, "2024-01-01", 7, 70, 6, "", ""⟩

/-- Weather with temp 36, humidity 90, and uv high / air poor /
dehydration high risk indicators. -/
def c3Weather : WeatherInfo :=
  ⟨⟨36, 90⟩, ⟨RiskLevel.high, RiskLevel.high, RiskLevel.poor,
    RiskLevel.high⟩⟩

/-- C3: with temp 36, humidity 90, uv_risk high, air_quality poor,
dehydration_risk high and 3 logs averaging 70 exercise minutes, the alert
generator returns exactly the six alerts Extreme Heat, High Humidity,
Dehydration Risk, High UV Index, Air Quality Advisory and Exercise
Adjustment, in that order; Heat Advisory is absent because the `elif`
makes it mutually exclusive with Extreme Heat. -/
theorem get_health_alerts_c3 :
    get_health_alerts sampleUser sampleProfile [c3Log 1, c3Log 2, c3Log 3]
        (some c3Weather) =
      [extremeHeatAlert, highHumidityAlert, dehydrationAlert, uvAlert,
        airQualityAlert, exerciseAlert] ∧
    (get_health_alerts sampleUser sampleProfile [c3Log 1, c3Log 2, c3Log 3]
        (some c3Weather)).contains heatAdvisoryAlert = false := by
  have h : get_health_alerts sampleUser sampleProfile
      [c3Log 1, c3Log 2, c3Log 3] (some c3Weather) =
      [extremeHeatAlert, highHumidityAlert, dehydrationAlert, uvAlert,
        airQualityAlert, exerciseAlert] := by
    norm_num [get_health_alerts, avg_exercise3, c3Log, c3Weather]
  refine ⟨h, ?_⟩
  rw [h]
  decide

set_option maxHeartbeats 2000000 in
/-- C10: for every input the alert generator returns at most 6 alerts:
Extreme Heat and Heat Advisory are mutually exclusive (`elif`), and the
Exercise Adjustment alert (needs temp > 30) can never fire together with
the Cool Weather Reminder (needs temp < 20). -/
theorem get_health_alerts_at_most_six (user : UserRec)
    (profile : ProfileRec) (recent_logs : List LogEntry)
    (weather_data : Option WeatherInfo) :
    (get_health_alerts user profile recent_logs weather_data).length ≤ 6 ∧
    ((get_health_alerts user profile recent_logs weather_data).contains
        extremeHeatAlert &&
      (get_health_alerts user profile recent_logs weather_data).contains
        heatAdvisoryAlert) = false ∧
    ((get_health_alerts user profile recent_logs weather_data).contains
        exerciseAlert &&
      (get_health_alerts user profile recent_logs weather_data).contains
        coolWeatherAlert) = false := by
  cases weather_data with
  | none => exact ⟨by simp [get_health_alerts], rfl, rfl⟩
  | some w =>
    rcases w with ⟨⟨temp, humidity⟩, risks⟩
    generalize hR : get_health_alerts user profile recent_logs
      (some ⟨⟨temp, humidity⟩, risks⟩) = R
    unfold get_health_alerts at hR
    dsimp only at hR
    split_ifs at hR <;> subst hR <;> first | decide | (exfalso; omega)

/-- The distinguishable outcomes of the single structured-output OpenAI
call in `get_health_tips` (openai_service.py lines 22-65):
`jsonTips` is a JSON body whose `tips` key is present, `jsonNoTipsKey` a
JSON body without it (`result.get('tips', ...)`), `emptyContent` a falsy
`message.content`, and `failure` anything that raises inside the `try`
(transport errors and non-JSON content alike).  The outer `Option` is the
`openai_client` guard: `none` models a missing OPENAI_API_KEY. -/
inductive AIOutcome where
  | jsonTips (tips : List String)
  | jsonNoTipsKey
  | emptyContent
  | failure
deriving DecidableEq, Repr

/-- `get_health_tips` (openai_service.py lines 15-65), with the external
call abstracted into its outcome. -/
def get_health_tips (client : Option AIOutcome) (user : UserRec)
    (profile : ProfileRec) (recent_logs : List LogEntry)
    (weather_data : Option WeatherInfo) : List String :=
  match client with
  | none => get_fallback_health_tips user profile recent_logs weather_data
  | some (.jsonTips tips) => tips
  | some .jsonNoTipsKey =>
      get_fallback_health_tips user profile recent_logs weather_data
  | some .emptyContent =>
      get_fallback_health_tips user profile recent_logs weather_data
  | some .failure =>
      get_fallback_health_tips user profile recent_logs weather_data

/-- Canned responses of `get_fallback_chat_response`
(openai_service.py lines 187-209). -/
def sleepChatResponse : String :=
  "For better sleep, try maintaining a consistent bedtime routine, avoiding screens before bed, and creating a comfortable sleep environment. If sleep issues persist, consider consulting a healthcare professional."

def exerciseChatResponse : String :=
  "Regular exercise is great for overall health! Start with activities you enjoy, aim for at least 30 minutes daily, and gradually increase intensity. Always consult a doctor before starting a new exercise program."

def dietChatResponse : String :=
  "A balanced diet with plenty of fruits, vegetables, whole grains, and lean proteins supports good health. Stay hydrated and limit processed foods. Consider consulting a nutritionist for personalized advice."

def stressChatResponse : String :=
  "Managing stress is important for overall health. Try relaxation techniques like deep breathing, meditation, or regular exercise. Don't hesitate to reach out to mental health professionals if needed."

def waterChatResponse : String :=
  "Staying hydrated is essential! Aim for 8-10 glasses of water daily, more if you're active or in hot weather. Water helps with digestion, circulation, and temperature regulation."

def genericChatResponse : String :=
  "I'm here to help with your health and wellness questions! For specific medical concerns, please consult with a healthcare professional. Is there a particular aspect of your health you'd like to discuss?"

/-- Python `any(word in message_lower for word in words)`. -/
def anyWordIn (words : List String) (message_lower : String) : Bool :=
  words.any (fun w => strContains message_lower w)

/-- `get_fallback_chat_response` (openai_service.py lines 187-209):
lowercase the message, scan the keyword categories in source order, return
the first matching category's canned response, else the generic one. -/
def get_fallback_chat_response (message : String) : String :=
  let message_lower := strToLower message
  if anyWordIn ["sleep", "tired", "insomnia"] message_lower then
    sleepChatResponse
  else if anyWordIn ["exercise", "workout", "fitness"] message_lower then
    exerciseChatResponse
  else if anyWordIn ["diet", "nutrition", "food", "eating"] message_lower then
    dietChatResponse
  else if anyWordIn ["stress", "anxiety", "mental"] message_lower then
    stressChatResponse
  else if anyWordIn ["water", "hydration", "drink"] message_lower then
    waterChatResponse
  else
    genericChatResponse

/-- The fixed apology returned by `chat_with_ai` when the model's content
is falsy (`content or "I'm sorry, ..."`). -/
def apologyResponse : String :=
  "I'm sorry, I couldn't generate a response. Please try again."

/-- Outcomes of the free-text OpenAI call in `chat_with_ai`
(openai_service.py lines 67-98): `ok content` is a completed call whose
`message.content` is `content` (`none` embeds Python `None`), `failure`
anything that raises inside the `try`. -/
inductive ChatOutcome where
  | ok (content : Option String)
  | failure
deriving DecidableEq, Repr

/-- `chat_with_ai` (openai_service.py lines 67-98), with the external call
abstracted into its outcome.  A falsy content (`None` or `""`) yields the
fixed apology string via Python's `or`. -/
def chat_with_ai (client : Option ChatOutcome) (message : String)
    (_user : UserRec) (_profile : ProfileRec)
    (_recent_logs : List LogEntry) : String :=
  match client with
  | none => get_fallback_chat_response message
  | some (.ok content) =>
      match content with
      | some s => if s = "" then apologyResponse else s
      | none => apologyResponse
  | some .failure => get_fallback_chat_response message

/-- C5: with no AI credential configured (`openai_client` absent) the tip
entry point returns exactly the list the rule-based generator returns on
the same inputs — the fallback is invoked directly, with no model
interaction consulted. -/
theorem get_health_tips_no_credential (user : UserRec)
    (profile : ProfileRec) (recent_logs : List LogEntry)
    (weather_data : Option WeatherInfo) :
    get_health_tips none user profile recent_logs weather_data =
      get_fallback_health_tips user profile recent_logs weather_data := rfl

set_option maxRecDepth 40000 in
/-- C6 (counterexample to the claim as stated): the empty-content variant
of the chat operation is not resolved to the keyword fallback — Python's
`content or "I'm sorry, ..."` yields the fixed apology string instead,
which differs from the fallback response for "I can't sleep at night". -/
theorem chat_empty_content_not_fallback :
    chat_with_ai (some (ChatOutcome.ok none)) "I can't sleep at night"
        sampleUser sampleProfile [] = apologyResponse ∧
    apologyResponse ≠
      get_fallback_chat_response "I can't sleep at night" := by
  constructor
  · rfl
  · intro h
    have : get_fallback_chat_response "I can't sleep at night" =
        sleepChatResponse := by decide
    rw [this] at h
    exact absurd h (by decide)

/-- C6 (amended): neither operation ever raises — both are total Lean
functions — and every failure variant is absorbed internally: for tips,
no credential, transport error / non-JSON, empty content and a missing
`tips` key all resolve to the rule-based fallback; for chat, no credential
and transport error resolve to the keyword fallback, while empty content
(`None` or `""`) resolves to the fixed apology string. -/
theorem ai_failures_absorbed (user : UserRec) (profile : ProfileRec)
    (recent_logs : List LogEntry) (weather_data : Option WeatherInfo)
    (message : String) :
    get_health_tips none user profile recent_logs weather_data =
      get_fallback_health_tips user profile recent_logs weather_data ∧
    get_health_tips (some AIOutcome.failure) user profile recent_logs
        weather_data =
      get_fallback_health_tips user profile recent_logs weather_data ∧
    get_health_tips (some AIOutcome.emptyContent) user profile recent_logs
        weather_data =
      get_fallback_health_tips user profile recent_logs weather_data ∧
    get_health_tips (some AIOutcome.jsonNoTipsKey) user profile recent_logs
        weather_data =
      get_fallback_health_tips user profile recent_logs weather_data ∧
    chat_with_ai none message user profile recent_logs =
      get_fallback_chat_response message ∧
    chat_with_ai (some ChatOutcome.failure) message user profile
        recent_logs = get_fallback_chat_response message ∧
    chat_with_ai (some (ChatOutcome.ok none)) message user profile
        recent_logs = apologyResponse ∧
    chat_with_ai (some (ChatOutcome.ok (some ""))) message user profile
        recent_logs = apologyResponse :=
  ⟨rfl, rfl, rfl, rfl, rfl, rfl, rfl, rfl⟩

/-- The five keyword categories with their canned responses, listed in the
source's scanning order; written from the spec's description of the chat
fallback as a first-match scan over fixed topic keywords. -/
def chatCategories : List (List String × String) :=
  [(["sleep", "tired", "insomnia"], sleepChatResponse),
   (["exercise", "workout", "fitness"], exerciseChatResponse),
   (["diet", "nutrition", "food", "eating"], dietChatResponse),
   (["stress", "anxiety", "mental"], stressChatResponse),
   (["water", "hydration", "drink"], waterChatResponse)]

/-- First-match scan over `chatCategories`, as the spec words the chat
fallback: the first category with a keyword occurring in the lowercased
message wins; no match gives the generic response. -/
def specChatResponse (message : String) : String :=
  match chatCategories.find? (fun c => anyWordIn c.1 (strToLower message)) with
  | some c => c.2
  | none => genericChatResponse

set_option maxRecDepth 40000 in
/-- C7: the chat fallback is exactly the first-match keyword scan in the
fixed category order; concretely, "I can't sleep at night" gets the
sleep response, a message with both an exercise and a sleep keyword gets
the sleep response (sleep scans first), and a keyword-free message gets
the generic ask-a-professional response. -/
theorem get_fallback_chat_response_first_match :
    (∀ message : String,
      get_fallback_chat_response message = specChatResponse message) ∧
    get_fallback_chat_response "I can't sleep at night" =
      sleepChatResponse ∧
    get_fallback_chat_response "my workout ruins my sleep" =
      sleepChatResponse ∧
    get_fallback_chat_response "hello there, how are you" =
      genericChatResponse := by
  refine ⟨?_, by decide, by decide, by decide⟩
  intro message
  unfold get_fallback_chat_response specChatResponse chatCategories
  cases h1 : anyWordIn ["sleep", "tired", "insomnia"] (strToLower message) <;>
  cases h2 : anyWordIn ["exercise", "workout", "fitness"] (strToLower message) <;>
  cases h3 : anyWordIn ["diet", "nutrition", "food", "eating"] (strToLower message) <;>
  cases h4 : anyWordIn ["stress", "anxiety", "mental"] (strToLower message) <;>
  cases h5 : anyWordIn ["water", "hydration", "drink"] (strToLower message) <;>
    simp [h1, h2, h3, h4, h5, List.find?]

/-- Descending-by-date comparator: Python's
`sorted(..., key=lambda x: x['date'], reverse=True)` is a stable sort that
puts larger dates first; `List.mergeSort` with this comparator is the same
stable sort. -/
def dateDescCmp (a b : LogEntry) : Bool := decide (b.date ≤ a.date)

/-- `LifestyleLog.get_by_user_id` (models.py lines 110-118).  The per-user
store `lifestyle_logs_db` is an association list; an absent user yields
`[]`.  Python's `if limit and limit > 0` treats `None`, `0` and negative
limits as "no truncation". -/
def LifestyleLog.get_by_user_id (db : List (Nat × List LogEntry))
    (user_id : Nat) (limit : Option Int) : List LogEntry :=
  match db.lookup user_id with
  | none => []
  | some logs =>
    let sorted := logs.mergeSort dateDescCmp
    match limit with
    | none => sorted
    | some l => if l > 0 then sorted.take l.toNat else sorted

/-- `dateDescCmp` is transitive. -/
theorem dateDescCmp_trans (a b c : LogEntry) :
    dateDescCmp a b → dateDescCmp b c → dateDescCmp a c := by
  unfold dateDescCmp
  intro h1 h2
  exact decide_eq_true (le_trans (of_decide_eq_true h2) (of_decide_eq_true h1))

/-- `dateDescCmp` is total. -/
theorem dateDescCmp_total (a b : LogEntry) :
    dateDescCmp a b || dateDescCmp b a := by
  unfold dateDescCmp
  rcases le_total a.date b.date with h | h <;> simp [h]

/-- Whatever the stored list and limit, the returned sequence is sorted
most-recent-first by date. -/
theorem get_by_user_id_sorted (db : List (Nat × List LogEntry))
    (user_id : Nat) (limit : Option Int) :
    List.Pairwise (fun a b : LogEntry => b.date ≤ a.date)
      (LifestyleLog.get_by_user_id db user_id limit) := by
  unfold LifestyleLog.get_by_user_id
  cases db.lookup user_id with
  | none => simp
  | some logs =>
    have hs : List.Pairwise (fun a b : LogEntry => b.date ≤ a.date)
        (logs.mergeSort dateDescCmp) :=
      (List.sorted_mergeSort dateDescCmp_trans dateDescCmp_total logs).imp
        (fun h => of_decide_eq_true h)
    cases limit with
    | none => exact hs
    | some l =>
      dsimp only
      split_ifs
      · exact hs.sublist (List.take_sublist _ _)
      · exact hs

/-- C9 (amended): `LifestyleLog.get_by_user_id` always returns the user's
logs sorted most-recent-first by date, and whenever the limit is a
positive integer the returned sequence has length at most that limit
(a `None`, zero or negative limit returns all logs unbounded). -/
theorem get_by_user_id_sorted_and_bounded (db : List (Nat × List LogEntry))
    (user_id : Nat) (limit : Option Int) :
    List.Pairwise (fun a b : LogEntry => b.date ≤ a.date)
      (LifestyleLog.get_by_user_id db user_id limit) ∧
    ∀ l : Int, limit = some l → 0 < l →
      (LifestyleLog.get_by_user_id db user_id limit).length ≤ l.toNat := by
  refine ⟨get_by_user_id_sorted db user_id limit, ?_⟩
  rintro l rfl hl
  unfold LifestyleLog.get_by_user_id
  cases db.lookup user_id with
  | none => simp
  | some logs =>
    dsimp only
    rw [if_pos hl]
    simp [List.length_take]

/-- Two stored logs for user 1, dated so that sorting matters. -/
def c9LogA : LogEntry := ⟨1, 1, "2024-01-01", 7, 30, 8, "", ""⟩

def c9LogB : LogEntry := ⟨2, 1, "2024-01-02", 6, 20, 7, "", ""⟩

def c9Db : List (Nat × List LogEntry) := [(1, [c9LogA, c9LogB])]

/-- Witness for the C9 amended theorem at a concrete store and limit 1. -/
theorem get_by_user_id_sorted_and_bounded_witness :
    (LifestyleLog.get_by_user_id c9Db 1 (some 1)).length ≤ (1 : Int).toNat :=
  (get_by_user_id_sorted_and_bounded c9Db 1 (some 1)).2 1 rfl (by decide)

/-- C9 (counterexample to the claim as stated): with limit 0 the source
returns the whole stored list (`if limit and limit > 0` is false), so the
returned length is not at most the limit: user 1 has 2 logs and limit 0
returns both. -/
theorem get_by_user_id_limit_zero_exceeds :
    ¬((LifestyleLog.get_by_user_id c9Db 1 (some 0)).length ≤ 0) := by
  unfold LifestyleLog.get_by_user_id c9Db
  simp only [List.lookup]
  norm_num [(List.mergeSort_perm [c9LogA, c9LogB] dateDescCmp).length_eq]
